import Mathlib

/-!
Verification of the connection-manager core of this repository
(`src/controllers/connectionManager.ts`).

The TypeScript `ConnectionManager` is embedded shallowly:

* the `_connections` object becomes an association list `Registry`;
* each public operation becomes a Lean function from the pre-state and the
  environment's inputs (protocol responses, UI selections, clock readings)
  to a `Run`: the ordered trace of observable side effects together with
  the post-state of the registry;
* JavaScript promise settlement is modelled by recording every `resolve` /
  `reject` call as a trace event; a promise's value is the first settlement
  event in its trace (`promiseValue`), matching the first-call-wins rule;
* an operation whose body spans an asynchronous protocol round-trip is split
  into its synchronous phase and its response callback, so that executions
  in which other steps run between the two can be expressed faithfully.

Modules `src/models/constants`, `src/models/utils` and the view/UI modules
are not under `src/`; the few values taken from them are modelled from the
spec and marked as such.
-/

namespace ConnMgr

/-- Credentials used to connect (`Interfaces.IConnectionCredentials`,
restricted to the four fields `connect` reads). -/
structure IConnectionCredentials where
  user : String
  password : String
  server : String
  database : String
deriving DecidableEq, Repr

/-- Information for a document's connection (class `ConnectionInfo`). -/
structure ConnectionInfo where
  connectionId : String
  credentials : IConnectionCredentials
deriving DecidableEq, Repr

/-- The payload of `Contracts.ConnectionDetails` built inside `connect`. -/
structure ConnectionDetails where
  userName : String
  password : String
  serverName : String
  databaseName : String
deriving DecidableEq, Repr

/-- `Contracts.ConnectParams`. -/
structure ConnectParams where
  ownerUri : String
  connection : ConnectionDetails
deriving DecidableEq, Repr

/-- `Contracts.DisconnectParams`. -/
structure DisconnectParams where
  ownerUri : String
deriving DecidableEq, Repr

/-- The service's response to a connect request: a connection handle
(empty on failure) and a message list. -/
structure ConnectionResult where
  connectionId : String
  messages : String
deriving DecidableEq, Repr

/-- The `_connections` map, `{ [fileUri: string]: ConnectionInfo }`,
as an association list with unique keys. -/
abbrev Registry := List (String × ConnectionInfo)

/-- Key lookup in the registry. -/
def Registry.lookup : Registry → String → Option ConnectionInfo
  | [], _ => none
  | (k, v) :: rest, key => if k = key then some v else Registry.lookup rest key

/-- `delete self._connections[fileUri]`. -/
def Registry.erase : Registry → String → Registry
  | [], _ => []
  | (k, v) :: rest, key =>
      if k = key then Registry.erase rest key else (k, v) :: Registry.erase rest key

/-- `self._connections[fileUri] = connection` (insert or overwrite). -/
def Registry.insert (st : Registry) (key : String) (v : ConnectionInfo) : Registry :=
  (key, v) :: Registry.erase st key

/-- `ConnectionManager.isConnected`: `fileUri in this._connections`. -/
def isConnected (st : Registry) (fileUri : String) : Bool :=
  (Registry.lookup st fileUri).isSome

namespace Constants

/-- Modelled from the spec: `Constants.msgError` (module `src/models/constants`
is not under `src/`) is the fixed prefix of the user-visible connect error;
its exact text is irrelevant to the claims. -/
def msgError : String := "Error: "

/-- Modelled from the spec: `Constants.msgOpenSqlFile`, the informational
message shown when no resource is open. -/
def msgOpenSqlFile : String := "Open a SQL file first"

/-- Modelled from the spec: `Constants.msgChooseDatabaseNotConnected`, the
warning shown when choosing a database while not connected. -/
def msgChooseDatabaseNotConnected : String := "Not connected"

end Constants

/-- Modelled from the spec: `Utils.Timer` (module `src/models/utils` is not
under `src/`). The spec speaks of "elapsed time", so a timer records the
instant it was started and the instant `end()` was called, and its duration
is their difference. -/
structure Timer where
  startedAt : Int
  endedAt : Int

/-- Elapsed time measured by a timer. -/
def Timer.getDuration (t : Timer) : Int := t.endedAt - t.startedAt

/-- One observable side effect of an operation, in execution order.
`registryPut` / `registryRemove` mark the instant the registry is mutated;
`promiseResolved` / `promiseRejected` record each call of the executor's
`resolve` / `reject` (JS `reject()` here always carries no reason). -/
inductive Event where
  | statusConnecting (fileUri : String) (creds : IConnectionCredentials)
  | statusConnectSuccess (fileUri : String) (creds : IConnectionCredentials)
  | statusConnectError (fileUri : String) (creds : IConnectionCredentials) (messages : String)
  | statusNotConnected (fileUri : String)
  | showErrorMsg (msg : String)
  | showInfoMsg (msg : String)
  | showWarnMsg (msg : String)
  | sendConnectRequest (params : ConnectParams)
  | sendDisconnectRequest (params : DisconnectParams)
  | telemetryDatabaseConnected (extensionConnectionTime serviceConnectionTime : Int)
  | registryPut (fileUri : String) (info : ConnectionInfo)
  | registryRemove (fileUri : String)
  | promiseResolved (value : Bool)
  | promiseRejected
deriving DecidableEq, Repr

/-- The settlement an event records, if any. -/
def Event.settlement : Event → Option (Except Unit Bool)
  | .promiseResolved b => some (Except.ok b)
  | .promiseRejected => some (Except.error ())
  | _ => none

/-- A JS promise settles with its first `resolve`/`reject` call; later calls
are no-ops. The value of an operation's promise is therefore the first
settlement event in its trace. -/
def promiseValue (tr : List Event) : Option (Except Unit Bool) :=
  tr.findSome? Event.settlement

/-- Whether an event settles the operation's promise. -/
def Event.isSettlement (e : Event) : Bool := (Event.settlement e).isSome

/-- The events that happen before the operation's outcome is first reported. -/
def beforeFirstSettlement (tr : List Event) : List Event :=
  tr.takeWhile (fun e => ! Event.isSettlement e)

/-- Whether an event is the Observability (telemetry) event. -/
def Event.isTelemetry : Event → Bool
  | .telemetryDatabaseConnected _ _ => true
  | _ => false

/-- The result of running (a phase of) an operation: the ordered trace of
its side effects and the resulting registry. -/
structure Run where
  trace : List Event
  registry : Registry
deriving DecidableEq, Repr

/-- The field-for-field mapping from credentials to `ConnectionDetails`
performed at the top of `ConnectionManager.connect`. -/
def connectionDetailsOf (c : IConnectionCredentials) : ConnectionDetails :=
  { userName := c.user, password := c.password,
    serverName := c.server, databaseName := c.database }

/-- The synchronous phase of `ConnectionManager.connect`: notify the status
view "connecting", build the request payload and send the connect request.
The executor registers the response callback and returns without settling
the promise. -/
def connectSync (st : Registry) (fileUri : String)
    (connectionCreds : IConnectionCredentials) : Run :=
  let connectParams : ConnectParams :=
    { ownerUri := fileUri, connection := connectionDetailsOf connectionCreds }
  { trace := [Event.statusConnecting fileUri connectionCreds,
              Event.sendConnectRequest connectParams],
    registry := st }

/-- The response callback of `ConnectionManager.connect`. `extensionTimer`
was started at `tExtStart` when `connect` was entered and `serviceTimer` at
`tSvcStart` just before the request was sent; the response arrives at
`tSvcEnd` (where `serviceTimer.end()` runs) and `extensionTimer.end()` runs
at `tExtEnd`. A non-empty handle stores the session, notifies success and
emits the telemetry event whose `extensionConnectionTime` is
`extensionTimer.getDuration() - serviceTimer.getDuration()`; an empty handle
shows the messages, notifies the error and rejects with no reason. -/
def connectCallback (st : Registry) (fileUri : String)
    (connectionCreds : IConnectionCredentials) (result : ConnectionResult)
    (tExtStart tSvcStart tSvcEnd tExtEnd : Int) : Run :=
  let serviceTimer : Timer := { startedAt := tSvcStart, endedAt := tSvcEnd }
  if result.connectionId ≠ "" then
    let connection : ConnectionInfo :=
      { connectionId := result.connectionId, credentials := connectionCreds }
    let extensionTimer : Timer := { startedAt := tExtStart, endedAt := tExtEnd }
    { trace := [Event.registryPut fileUri connection,
                Event.statusConnectSuccess fileUri connectionCreds,
                Event.telemetryDatabaseConnected
                  (extensionTimer.getDuration - serviceTimer.getDuration)
                  serviceTimer.getDuration,
                Event.promiseResolved true],
      registry := Registry.insert st fileUri connection }
  else
    { trace := [Event.showErrorMsg (Constants.msgError ++ result.messages),
                Event.statusConnectError fileUri connectionCreds result.messages,
                Event.promiseRejected],
      registry := st }

/-- `ConnectionManager.connect` run to completion: the synchronous phase,
then (when the response arrives) the callback. -/
def connect (st : Registry) (fileUri : String)
    (connectionCreds : IConnectionCredentials) (result : ConnectionResult)
    (tExtStart tSvcStart tSvcEnd tExtEnd : Int) : Run :=
  let s := connectSync st fileUri connectionCreds
  let c := connectCallback s.registry fileUri connectionCreds result
            tExtStart tSvcStart tSvcEnd tExtEnd
  { trace := s.trace ++ c.trace, registry := c.registry }

/-- The synchronous phase of `ConnectionManager.disconnect` when the registry
has an entry: the executor sends the disconnect request and then falls
through to the unconditional `resolve(true)`, settling the promise before
the response arrives. -/
def disconnectSync (st : Registry) (fileUri : String) : Run :=
  { trace := [Event.sendDisconnectRequest { ownerUri := fileUri },
              Event.promiseResolved true],
    registry := st }

/-- The response callback of `ConnectionManager.disconnect`: notify the
status view "not connected", delete the entry, then call `resolve(result)` —
a no-op for the promise value, which already settled to `true`. -/
def disconnectCallback (st : Registry) (fileUri : String) (result : Bool) : Run :=
  { trace := [Event.statusNotConnected fileUri,
              Event.registryRemove fileUri,
              Event.promiseResolved result],
    registry := Registry.erase st fileUri }

/-- `ConnectionManager.disconnect` run to completion. With no entry for
`fileUri` the executor only runs the unconditional `resolve(true)`. -/
def disconnect (st : Registry) (fileUri : String) (result : Bool) : Run :=
  if isConnected st fileUri then
    let s := disconnectSync st fileUri
    let c := disconnectCallback s.registry fileUri result
    { trace := s.trace ++ c.trace, registry := c.registry }
  else
    { trace := [Event.promiseResolved true], registry := st }

/-- The `disconnect(fileUri).then(() => connect(fileUri, creds))` pattern
shared by `onChooseDatabase` and `onNewConnection`. When `fileUri` is
connected, the disconnect promise resolves at the end of its synchronous
phase, so `connect` starts while the disconnect request is still in flight;
the environment decides which response arrives first
(`disconnectRespFirst`). When it is not connected, the disconnect promise
resolves at once with no request and `connect` then runs alone. -/
def disconnectThenConnect (st : Registry) (fileUri : String)
    (creds : IConnectionCredentials) (dres : Bool) (cres : ConnectionResult)
    (tExtStart tSvcStart tSvcEnd tExtEnd : Int) (disconnectRespFirst : Bool) : Run :=
  if isConnected st fileUri then
    let d0 := disconnectSync st fileUri
    let c0 := connectSync d0.registry fileUri creds
    if disconnectRespFirst then
      let d1 := disconnectCallback c0.registry fileUri dres
      let c1 := connectCallback d1.registry fileUri creds cres
                  tExtStart tSvcStart tSvcEnd tExtEnd
      { trace := d0.trace ++ c0.trace ++ d1.trace ++ c1.trace, registry := c1.registry }
    else
      let c1 := connectCallback c0.registry fileUri creds cres
                  tExtStart tSvcStart tSvcEnd tExtEnd
      let d1 := disconnectCallback c1.registry fileUri dres
      { trace := d0.trace ++ c0.trace ++ c1.trace ++ d1.trace, registry := d1.registry }
  else
    let c := connect st fileUri creds cres tExtStart tSvcStart tSvcEnd tExtEnd
    { trace := Event.promiseResolved true :: c.trace, registry := c.registry }

/-- `ConnectionManager.onChooseDatabase`. `fileUri` is the active editor's
resource identifier, `newDatabaseCredentials` the outcome of
`showDatabasesOnCurrentServer` (none when the user cancels). When not
connected a warning is shown and the operation aborts; otherwise a chosen
database triggers disconnect-then-connect with the new credentials. -/
def onChooseDatabase (st : Registry) (fileUri : String)
    (newDatabaseCredentials : Option IConnectionCredentials) (dres : Bool)
    (cres : ConnectionResult) (tExtStart tSvcStart tSvcEnd tExtEnd : Int)
    (disconnectRespFirst : Bool) : Run :=
  if isConnected st fileUri = false then
    { trace := [Event.showWarnMsg Constants.msgChooseDatabaseNotConnected], registry := st }
  else
    match newDatabaseCredentials with
    | none => { trace := [], registry := st }
    | some newCreds =>
        disconnectThenConnect st fileUri newCreds dres cres
          tExtStart tSvcStart tSvcEnd tExtEnd disconnectRespFirst

/-- `ConnectionManager.onNewConnection`. `fileUri` is the active editor's
resource identifier; when it is empty an informational message is shown but
the code then proceeds to show the picklist anyway. `connectionCreds` is the
outcome of `showConnections` (none when the user cancels); a selection
triggers disconnect-then-connect with the chosen credentials. -/
def onNewConnection (st : Registry) (fileUri : String)
    (connectionCreds : Option IConnectionCredentials) (dres : Bool)
    (cres : ConnectionResult) (tExtStart tSvcStart tSvcEnd tExtEnd : Int)
    (disconnectRespFirst : Bool) : Run :=
  let infoTrace : List Event :=
    if fileUri = "" then [Event.showInfoMsg Constants.msgOpenSqlFile] else []
  match connectionCreds with
  | none => { trace := infoTrace, registry := st }
  | some creds =>
      let r := disconnectThenConnect st fileUri creds dres cres
                 tExtStart tSvcStart tSvcEnd tExtEnd disconnectRespFirst
      { trace := infoTrace ++ r.trace, registry := r.registry }

/-- The linearization of `disconnect(R)` and `connect(R, creds)` invoked
back-to-back on a connected resource `R`, in the schedule where both
protocol requests are issued before either response arrives, the connect
response arrives first and the disconnect response last. Nothing in the
source serializes the two operations, so this schedule is reachable. -/
def backToBackRace (st : Registry) (fileUri : String)
    (newCreds : IConnectionCredentials) (dres : Bool) (cres : ConnectionResult)
    (tExtStart tSvcStart tSvcEnd tExtEnd : Int) : Run :=
  let d0 := disconnectSync st fileUri
  let c0 := connectSync d0.registry fileUri newCreds
  let c1 := connectCallback c0.registry fileUri newCreds cres
              tExtStart tSvcStart tSvcEnd tExtEnd
  let d1 := disconnectCallback c1.registry fileUri dres
  { trace := d0.trace ++ c0.trace ++ c1.trace ++ d1.trace, registry := d1.registry }

/-- One invocation of an Orchestrator operation together with the
environment's inputs for it. -/
inductive Op where
  | connectOp (fileUri : String) (creds : IConnectionCredentials)
      (result : ConnectionResult) (t1 t2 t3 t4 : Int)
  | disconnectOp (fileUri : String) (result : Bool)
  | chooseDatabaseOp (fileUri : String) (newCreds : Option IConnectionCredentials)
      (dres : Bool) (cres : ConnectionResult) (t1 t2 t3 t4 : Int) (respFirst : Bool)
  | newConnectionOp (fileUri : String) (creds : Option IConnectionCredentials)
      (dres : Bool) (cres : ConnectionResult) (t1 t2 t3 t4 : Int) (respFirst : Bool)
deriving DecidableEq, Repr

/-- The registry after one operation runs to completion. -/
def step (st : Registry) : Op → Registry
  | .connectOp uri creds result t1 t2 t3 t4 =>
      (connect st uri creds result t1 t2 t3 t4).registry
  | .disconnectOp uri result => (disconnect st uri result).registry
  | .chooseDatabaseOp uri newCreds dres cres t1 t2 t3 t4 b =>
      (onChooseDatabase st uri newCreds dres cres t1 t2 t3 t4 b).registry
  | .newConnectionOp uri creds dres cres t1 t2 t3 t4 b =>
      (onNewConnection st uri creds dres cres t1 t2 t3 t4 b).registry

/-- The registry after a sequence of operations, each run to completion. -/
def run (st : Registry) : List Op → Registry
  | [] => st
  | op :: rest => run (step st op) rest

/-- The resource identifiers an operation may pass to `connect`. -/
def Op.connectTargets : Op → List String
  | .connectOp uri _ _ _ _ _ _ => [uri]
  | .disconnectOp _ _ => []
  | .chooseDatabaseOp uri _ _ _ _ _ _ _ _ => [uri]
  | .newConnectionOp uri _ _ _ _ _ _ _ _ => [uri]

/-- All resource identifiers a sequence of operations may pass to `connect`. -/
def opsConnectTargets (ops : List Op) : List String :=
  ops.foldr (fun op acc => op.connectTargets ++ acc) []

/-- Sample credentials used in closed witness statements. -/
def sampleCreds : IConnectionCredentials :=
  { user := "sa", password := "pw", server := "server1", database := "master" }

/-! ## Registry lemmas -/

theorem lookup_erase (st : Registry) (key k : String) :
    Registry.lookup (Registry.erase st key) k =
      if k = key then none else Registry.lookup st k := by
  induction st with
  | nil => simp [Registry.erase, Registry.lookup]
  | cons hd tl ih =>
      obtain ⟨k', v⟩ := hd
      by_cases h1 : k' = key
      · subst h1
        by_cases h2 : k = k'
        · subst h2
          simp [Registry.erase, Registry.lookup, ih]
        · simp [Registry.erase, Registry.lookup, ih, h2, Ne.symm h2]
      · by_cases h3 : k' = k
        · subst h3
          simp [Registry.erase, Registry.lookup, ih, h1, Ne.symm h1]
        · by_cases h2 : k = key
          · subst h2
            simp [Registry.erase, Registry.lookup, ih, h1, h3]
          · simp [Registry.erase, Registry.lookup, ih, h1, h2, h3]

theorem lookup_insert (st : Registry) (key k : String) (v : ConnectionInfo) :
    Registry.lookup (Registry.insert st key v) k =
      if k = key then some v else Registry.lookup st k := by
  by_cases h : k = key
  · simp [Registry.insert, Registry.lookup, h]
  · simp [Registry.insert, Registry.lookup, lookup_erase, h, Ne.symm h]

theorem lookup_insert_self (st : Registry) (key : String) (v : ConnectionInfo) :
    Registry.lookup (Registry.insert st key v) key = some v := by
  simp [lookup_insert]

theorem lookup_erase_self (st : Registry) (key : String) :
    Registry.lookup (Registry.erase st key) key = none := by
  simp [lookup_erase]

/-! ## Characterization of the operations' registries -/

theorem connect_registry (st : Registry) (uri : String)
    (creds : IConnectionCredentials) (res : ConnectionResult) (t1 t2 t3 t4 : Int) :
    (connect st uri creds res t1 t2 t3 t4).registry =
      if res.connectionId ≠ "" then
        Registry.insert st uri { connectionId := res.connectionId, credentials := creds }
      else st := by
  by_cases h : res.connectionId = "" <;>
    simp [connect, connectSync, connectCallback, h]

theorem disconnect_registry (st : Registry) (uri : String) (res : Bool) :
    (disconnect st uri res).registry =
      if isConnected st uri then Registry.erase st uri else st := by
  by_cases h : isConnected st uri <;>
    simp [disconnect, disconnectSync, disconnectCallback, h]

theorem connectCallback_registry (st : Registry) (uri : String)
    (creds : IConnectionCredentials) (res : ConnectionResult) (t1 t2 t3 t4 : Int) :
    (connectCallback st uri creds res t1 t2 t3 t4).registry =
      if res.connectionId ≠ "" then
        Registry.insert st uri { connectionId := res.connectionId, credentials := creds }
      else st := by
  by_cases h : res.connectionId = "" <;> simp [connectCallback, h]

theorem disconnectThenConnect_registry (st : Registry) (uri : String)
    (creds : IConnectionCredentials) (dres : Bool) (cres : ConnectionResult)
    (t1 t2 t3 t4 : Int) (b : Bool) :
    (disconnectThenConnect st uri creds dres cres t1 t2 t3 t4 b).registry =
      if isConnected st uri then
        if b then
          (connectCallback (Registry.erase st uri) uri creds cres t1 t2 t3 t4).registry
        else
          Registry.erase (connectCallback st uri creds cres t1 t2 t3 t4).registry uri
      else (connect st uri creds cres t1 t2 t3 t4).registry := by
  by_cases h : isConnected st uri <;> cases b <;>
    simp [disconnectThenConnect, disconnectSync, connectSync, disconnectCallback,
      connect, h]

/-! ## Preservation lemmas for the registry invariant -/

/-- The Session Registry invariant of the spec: no stored entry has an empty
`connectionId`. -/
def goodRegistry (st : Registry) : Prop :=
  ∀ k info, Registry.lookup st k = some info → info.connectionId ≠ ""

theorem goodRegistry_insert {st : Registry} {k : String} {v : ConnectionInfo}
    (hst : goodRegistry st) (hv : v.connectionId ≠ "") :
    goodRegistry (Registry.insert st k v) := by
  intro k' info h
  rw [lookup_insert] at h
  by_cases hk : k' = k
  · rw [if_pos hk] at h
    exact Option.some.inj h ▸ hv
  · rw [if_neg hk] at h
    exact hst k' info h

theorem goodRegistry_erase {st : Registry} {k : String} (hst : goodRegistry st) :
    goodRegistry (Registry.erase st k) := by
  intro k' info h
  rw [lookup_erase] at h
  by_cases hk : k' = k
  · rw [if_pos hk] at h
    exact absurd h (by simp)
  · rw [if_neg hk] at h
    exact hst k' info h

theorem goodRegistry_connectCallback (uri : String) (creds : IConnectionCredentials)
    (res : ConnectionResult) (t1 t2 t3 t4 : Int) {st : Registry} (hst : goodRegistry st) :
    goodRegistry (connectCallback st uri creds res t1 t2 t3 t4).registry := by
  rw [connectCallback_registry]
  split
  · exact goodRegistry_insert hst (by assumption)
  · exact hst

theorem goodRegistry_connect (uri : String) (creds : IConnectionCredentials)
    (res : ConnectionResult) (t1 t2 t3 t4 : Int) {st : Registry} (hst : goodRegistry st) :
    goodRegistry (connect st uri creds res t1 t2 t3 t4).registry := by
  rw [connect_registry]
  split
  · exact goodRegistry_insert hst (by assumption)
  · exact hst

theorem goodRegistry_disconnectThenConnect (uri : String)
    (creds : IConnectionCredentials) (dres : Bool) (cres : ConnectionResult)
    (t1 t2 t3 t4 : Int) (b : Bool) {st : Registry} (hst : goodRegistry st) :
    goodRegistry (disconnectThenConnect st uri creds dres cres t1 t2 t3 t4 b).registry := by
  rw [disconnectThenConnect_registry]
  split
  · split
    · exact goodRegistry_connectCallback uri creds cres t1 t2 t3 t4 (goodRegistry_erase hst)
    · exact goodRegistry_erase (goodRegistry_connectCallback uri creds cres t1 t2 t3 t4 hst)
  · exact goodRegistry_connect uri creds cres t1 t2 t3 t4 hst

theorem goodRegistry_step (op : Op) {st : Registry} (hst : goodRegistry st) :
    goodRegistry (step st op) := by
  cases op with
  | connectOp uri creds res t1 t2 t3 t4 =>
      exact goodRegistry_connect uri creds res t1 t2 t3 t4 hst
  | disconnectOp uri res =>
      show goodRegistry (disconnect st uri res).registry
      rw [disconnect_registry]
      split
      · exact goodRegistry_erase hst
      · exact hst
  | chooseDatabaseOp uri newCreds dres cres t1 t2 t3 t4 b =>
      show goodRegistry (onChooseDatabase st uri newCreds dres cres t1 t2 t3 t4 b).registry
      rw [onChooseDatabase.eq_def]
      split
      · exact hst
      · cases newCreds with
        | none => exact hst
        | some creds =>
            exact goodRegistry_disconnectThenConnect uri creds dres cres t1 t2 t3 t4 b hst
  | newConnectionOp uri creds dres cres t1 t2 t3 t4 b =>
      show goodRegistry (onNewConnection st uri creds dres cres t1 t2 t3 t4 b).registry
      cases creds with
      | none => simpa [onNewConnection] using hst
      | some c =>
          have := goodRegistry_disconnectThenConnect uri c dres cres t1 t2 t3 t4 b hst
          simpa [onNewConnection] using this

/-! ## Preservation of absence for untouched resource identifiers -/

theorem lookup_insert_none {st : Registry} {k r : String} {v : ConnectionInfo}
    (hr : r ≠ k) (h : Registry.lookup st r = none) :
    Registry.lookup (Registry.insert st k v) r = none := by
  rw [lookup_insert, if_neg hr]
  exact h

theorem lookup_erase_none {st : Registry} {k r : String}
    (h : Registry.lookup st r = none) :
    Registry.lookup (Registry.erase st k) r = none := by
  rw [lookup_erase]
  split
  · rfl
  · exact h

theorem connectCallback_lookup_none (uri : String) (creds : IConnectionCredentials)
    (res : ConnectionResult) (t1 t2 t3 t4 : Int) {st : Registry} {r : String}
    (hr : r ≠ uri) (h : Registry.lookup st r = none) :
    Registry.lookup (connectCallback st uri creds res t1 t2 t3 t4).registry r = none := by
  rw [connectCallback_registry]
  split
  · exact lookup_insert_none hr h
  · exact h

theorem connect_lookup_none (uri : String) (creds : IConnectionCredentials)
    (res : ConnectionResult) (t1 t2 t3 t4 : Int) {st : Registry} {r : String}
    (hr : r ≠ uri) (h : Registry.lookup st r = none) :
    Registry.lookup (connect st uri creds res t1 t2 t3 t4).registry r = none := by
  rw [connect_registry]
  split
  · exact lookup_insert_none hr h
  · exact h

theorem disconnectThenConnect_lookup_none (uri : String)
    (creds : IConnectionCredentials) (dres : Bool) (cres : ConnectionResult)
    (t1 t2 t3 t4 : Int) (b : Bool) {st : Registry} {r : String}
    (hr : r ≠ uri) (h : Registry.lookup st r = none) :
    Registry.lookup (disconnectThenConnect st uri creds dres cres t1 t2 t3 t4 b).registry
      r = none := by
  rw [disconnectThenConnect_registry]
  split
  · split
    · exact connectCallback_lookup_none uri creds cres t1 t2 t3 t4 hr (lookup_erase_none h)
    · exact lookup_erase_none (connectCallback_lookup_none uri creds cres t1 t2 t3 t4 hr h)
  · exact connect_lookup_none uri creds cres t1 t2 t3 t4 hr h

theorem step_lookup_none (op : Op) {st : Registry} {r : String}
    (hr : r ∉ op.connectTargets) (h : Registry.lookup st r = none) :
    Registry.lookup (step st op) r = none := by
  cases op with
  | connectOp uri creds res t1 t2 t3 t4 =>
      have hru : r ≠ uri := by simpa [Op.connectTargets] using hr
      exact connect_lookup_none uri creds res t1 t2 t3 t4 hru h
  | disconnectOp uri res =>
      show Registry.lookup (disconnect st uri res).registry r = none
      rw [disconnect_registry]
      split
      · exact lookup_erase_none h
      · exact h
  | chooseDatabaseOp uri newCreds dres cres t1 t2 t3 t4 b =>
      have hru : r ≠ uri := by simpa [Op.connectTargets] using hr
      show Registry.lookup (onChooseDatabase st uri newCreds dres cres t1 t2 t3 t4 b).registry
        r = none
      rw [onChooseDatabase.eq_def]
      split
      · exact h
      · cases newCreds with
        | none => exact h
        | some creds =>
            exact disconnectThenConnect_lookup_none uri creds dres cres t1 t2 t3 t4 b hru h
  | newConnectionOp uri creds dres cres t1 t2 t3 t4 b =>
      have hru : r ≠ uri := by simpa [Op.connectTargets] using hr
      show Registry.lookup (onNewConnection st uri creds dres cres t1 t2 t3 t4 b).registry
        r = none
      cases creds with
      | none => simpa [onNewConnection] using h
      | some c =>
          have := disconnectThenConnect_lookup_none uri c dres cres t1 t2 t3 t4 b hru h
          simpa [onNewConnection] using this

/-! ## Claim theorems -/

/-- C1, counterexample: at a connect whose total elapsed time is `10` and
whose protocol round-trip takes `7`, the single Observability event emitted
carries `extensionConnectionTime = 3` (the difference), not the total
elapsed time `10` the claim describes. -/
theorem connect_telemetry_counterexample :
    ((connect [] "file1" sampleCreds { connectionId := "abc", messages := "" }
        0 1 8 10).trace.filter Event.isTelemetry
      = [Event.telemetryDatabaseConnected 3 7]) ∧
    Event.telemetryDatabaseConnected 10 7 ∉
      (connect [] "file1" sampleCreds { connectionId := "abc", messages := "" }
        0 1 8 10).trace := by
  decide

/-- C1, amended: for every connect whose protocol response carries a
non-empty connection handle, exactly one Observability event is emitted; it
carries `serviceConnectionTime` equal to the elapsed time of the protocol
round-trip alone, and `extensionConnectionTime` equal to the total elapsed
time of the whole connect call minus that round-trip time (the client-side
overhead). -/
theorem connect_telemetry_amended (st : Registry) (uri : String)
    (creds : IConnectionCredentials) (res : ConnectionResult) (t1 t2 t3 t4 : Int)
    (h : res.connectionId ≠ "") :
    (connect st uri creds res t1 t2 t3 t4).trace.filter Event.isTelemetry
      = [Event.telemetryDatabaseConnected ((t4 - t1) - (t3 - t2)) (t3 - t2)] := by
  simp [connect, connectSync, connectCallback, h, Event.isTelemetry,
    Timer.getDuration, List.filter]

/-- Witness for the amended C1 at a concrete input. -/
theorem connect_telemetry_amended_witness :
    (connect [] "file2" sampleCreds { connectionId := "xyz", messages := "" }
        0 2 5 9).trace.filter Event.isTelemetry
      = [Event.telemetryDatabaseConnected ((9 - 0) - (5 - 2)) (5 - 2)] :=
  connect_telemetry_amended [] "file2" sampleCreds
    { connectionId := "xyz", messages := "" } 0 2 5 9 (by decide)

/-- C2: at a connected resource, `disconnect` settles its promise with
`true` immediately — before the status view is notified and before the
registry entry is removed (both happen only after the first settlement),
and regardless of the protocol's reported result (`false` here). -/
theorem disconnect_resolves_before_removal :
    promiseValue (disconnect
        [("file1", { connectionId := "abc", credentials := sampleCreds })]
        "file1" false).trace = some (Except.ok true) ∧
    beforeFirstSettlement (disconnect
        [("file1", { connectionId := "abc", credentials := sampleCreds })]
        "file1" false).trace
      = [Event.sendDisconnectRequest { ownerUri := "file1" }] ∧
    Event.registryRemove "file1" ∈ (disconnect
        [("file1", { connectionId := "abc", credentials := sampleCreds })]
        "file1" false).trace := by
  refine ⟨rfl, rfl, by decide⟩

/-- C3: in the unserialized back-to-back execution of `disconnect(R)` and
`connect(R)` on a connected resource, the connect request is issued while
the disconnect request is still in flight (between the disconnect request
and the disconnect callback in the trace), the connect operation reports
success and stores its session, and yet the final registry has no entry for
`R` — the late disconnect response erased the session of the connect that
completed after it. -/
theorem race_unserialized_lost_session :
    ((backToBackRace [("file1", { connectionId := "old", credentials := sampleCreds })]
        "file1" sampleCreds true { connectionId := "new", messages := "" } 0 0 0 0).trace
      = [Event.sendDisconnectRequest { ownerUri := "file1" },
         Event.promiseResolved true,
         Event.statusConnecting "file1" sampleCreds,
         Event.sendConnectRequest
           { ownerUri := "file1", connection := connectionDetailsOf sampleCreds },
         Event.registryPut "file1" { connectionId := "new", credentials := sampleCreds },
         Event.statusConnectSuccess "file1" sampleCreds,
         Event.telemetryDatabaseConnected 0 0,
         Event.promiseResolved true,
         Event.statusNotConnected "file1",
         Event.registryRemove "file1",
         Event.promiseResolved true]) ∧
    Registry.lookup (backToBackRace
        [("file1", { connectionId := "old", credentials := sampleCreds })]
        "file1" sampleCreds true { connectionId := "new", messages := "" } 0 0 0 0).registry
      "file1" = none := by
  decide

/-- C4: a connect whose protocol response carries an empty handle rejects
the promise, leaves the registry unmutated (so `isConnected` stays false),
and surfaces the response's message list both as a user-visible error and
through the status view's error notification. -/
theorem connect_failure_behavior (st : Registry) (uri : String)
    (creds : IConnectionCredentials) (res : ConnectionResult) (t1 t2 t3 t4 : Int)
    (hres : res.connectionId = "") (hnc : isConnected st uri = false) :
    promiseValue (connect st uri creds res t1 t2 t3 t4).trace
      = some (Except.error ()) ∧
    (connect st uri creds res t1 t2 t3 t4).registry = st ∧
    isConnected (connect st uri creds res t1 t2 t3 t4).registry uri = false ∧
    Event.showErrorMsg (Constants.msgError ++ res.messages)
      ∈ (connect st uri creds res t1 t2 t3 t4).trace ∧
    Event.statusConnectError uri creds res.messages
      ∈ (connect st uri creds res t1 t2 t3 t4).trace := by
  refine ⟨?_, ?_, ?_, ?_, ?_⟩ <;>
    simp [connect, connectSync, connectCallback, hres, hnc, promiseValue,
      Event.settlement]

/-- Witness for C4 at a concrete input. -/
theorem connect_failure_behavior_witness :
    promiseValue (connect [] "file1" sampleCreds
        { connectionId := "", messages := "login failed" } 0 0 1 1).trace
      = some (Except.error ()) :=
  (connect_failure_behavior [] "file1" sampleCreds
    { connectionId := "", messages := "login failed" } 0 0 1 1 rfl rfl).1

/-- C5: a connect whose protocol response carries a non-empty handle leaves
`isConnected` true, and a subsequent disconnect whose protocol response
arrives leaves `isConnected` false again. -/
theorem connect_then_disconnect_roundtrip (st : Registry) (uri : String)
    (creds : IConnectionCredentials) (res : ConnectionResult) (dres : Bool)
    (t1 t2 t3 t4 : Int) (h : res.connectionId ≠ "") :
    isConnected (connect st uri creds res t1 t2 t3 t4).registry uri = true ∧
    isConnected
      (disconnect (connect st uri creds res t1 t2 t3 t4).registry uri dres).registry
      uri = false := by
  have h1 : (connect st uri creds res t1 t2 t3 t4).registry
      = Registry.insert st uri { connectionId := res.connectionId, credentials := creds } := by
    rw [connect_registry, if_pos h]
  constructor
  · simp [h1, isConnected, lookup_insert_self]
  · rw [disconnect_registry]
    simp [h1, isConnected, lookup_insert_self, lookup_erase_self]

/-- Witness for C5 at a concrete input. -/
theorem connect_then_disconnect_roundtrip_witness :
    isConnected (connect [] "file1" sampleCreds
      { connectionId := "abc", messages := "" } 0 0 0 0).registry "file1" = true :=
  (connect_then_disconnect_roundtrip [] "file1" sampleCreds
    { connectionId := "abc", messages := "" } true 0 0 0 0 (by decide)).1

/-- C6: starting from the empty registry, every sequence of Orchestrator
operations preserves the invariant that no stored entry has an empty
`connectionId`, and every resource identifier never passed to `connect`
(directly or through a compound operation) stays disconnected. -/
theorem registry_invariant_and_untouched (ops : List Op) :
    (∀ k info, Registry.lookup (run [] ops) k = some info → info.connectionId ≠ "") ∧
    (∀ r, r ∉ opsConnectTargets ops → isConnected (run [] ops) r = false) := by
  constructor
  · have main : ∀ ops' st, goodRegistry st → goodRegistry (run st ops') := by
      intro ops'
      induction ops' with
      | nil => intro st h; exact h
      | cons op rest ih => intro st h; exact ih _ (goodRegistry_step op h)
    exact main ops [] (by intro k info h; simp [Registry.lookup] at h)
  · intro r hr
    have main : ∀ ops' st, r ∉ opsConnectTargets ops' → Registry.lookup st r = none →
        Registry.lookup (run st ops') r = none := by
      intro ops'
      induction ops' with
      | nil => intro st _ h; exact h
      | cons op rest ih =>
          intro st hnot h
          have hsplit : r ∉ op.connectTargets ∧ r ∉ opsConnectTargets rest := by
            constructor <;> intro hm <;> apply hnot <;>
              simp [opsConnectTargets, List.mem_append] at * <;> tauto
          exact ih _ hsplit.2 (step_lookup_none op hsplit.1 h)
    have hnone := main ops [] hr rfl
    simp [isConnected, hnone]

/-- Witness for C6 at a concrete operation sequence. -/
theorem registry_invariant_and_untouched_witness :
    isConnected (run [] [Op.connectOp "file1" sampleCreds
      { connectionId := "abc", messages := "" } 0 0 0 0]) "file2" = false :=
  (registry_invariant_and_untouched
    [Op.connectOp "file1" sampleCreds { connectionId := "abc", messages := "" } 0 0 0 0]).2
    "file2" (by decide)

/-- C7: invoked with an empty active-resource identifier, `onNewConnection`
shows the informational message but does not abort: when the user picks
credentials it still issues a connect request with the empty identifier and,
on a successful response, stores a registry entry keyed by the empty
string. -/
theorem onNewConnection_empty_uri_behavior :
    Event.showInfoMsg Constants.msgOpenSqlFile
      ∈ (onNewConnection [] "" (some sampleCreds) true
          { connectionId := "abc", messages := "" } 0 0 0 0 false).trace ∧
    Event.sendConnectRequest { ownerUri := "", connection := connectionDetailsOf sampleCreds }
      ∈ (onNewConnection [] "" (some sampleCreds) true
          { connectionId := "abc", messages := "" } 0 0 0 0 false).trace ∧
    isConnected (onNewConnection [] "" (some sampleCreds) true
        { connectionId := "abc", messages := "" } 0 0 0 0 false).registry "" = true := by
  decide

/-- C8: when a database is chosen on a connected resource, the operation
disconnects and reconnects with the new credentials; if the connect's
protocol response carries an empty handle, the resource ends with no
registry entry, under either order of arrival of the two protocol
responses. -/
theorem chooseDatabase_disconnect_ok_connect_fail (st : Registry) (uri : String)
    (newCreds : IConnectionCredentials) (dres : Bool) (cres : ConnectionResult)
    (t1 t2 t3 t4 : Int) (b : Bool)
    (hc : isConnected st uri = true) (hf : cres.connectionId = "") :
    Registry.lookup
      (onChooseDatabase st uri (some newCreds) dres cres t1 t2 t3 t4 b).registry
      uri = none ∧
    Event.sendConnectRequest { ownerUri := uri, connection := connectionDetailsOf newCreds }
      ∈ (onChooseDatabase st uri (some newCreds) dres cres t1 t2 t3 t4 b).trace := by
  cases b <;>
    refine ⟨?_, ?_⟩ <;>
      simp [onChooseDatabase, disconnectThenConnect, disconnectSync, connectSync,
        connectCallback, disconnectCallback, connect, hc, hf, lookup_erase_self]

/-- Witness for C8 at a concrete input. -/
theorem chooseDatabase_disconnect_ok_connect_fail_witness :
    Registry.lookup
      (onChooseDatabase [("file1", { connectionId := "abc", credentials := sampleCreds })]
        "file1" (some sampleCreds) true { connectionId := "", messages := "err" }
        0 0 0 0 true).registry "file1" = none :=
  (chooseDatabase_disconnect_ok_connect_fail
    [("file1", { connectionId := "abc", credentials := sampleCreds })]
    "file1" sampleCreds true { connectionId := "", messages := "err" }
    0 0 0 0 true rfl rfl).1

/-- C9: `disconnect` on a resource with no registry entry settles
successfully with `true`, sends no protocol request, changes nothing in the
registry and does not notify the status view. -/
theorem disconnect_not_connected_noop (st : Registry) (uri : String) (res : Bool)
    (h : isConnected st uri = false) :
    (disconnect st uri res).registry = st ∧
    promiseValue (disconnect st uri res).trace = some (Except.ok true) ∧
    (∀ p : DisconnectParams, Event.sendDisconnectRequest p ∉ (disconnect st uri res).trace) ∧
    Event.statusNotConnected uri ∉ (disconnect st uri res).trace ∧
    Event.registryRemove uri ∉ (disconnect st uri res).trace := by
  refine ⟨?_, ?_, ?_, ?_, ?_⟩ <;>
    simp [disconnect, h, promiseValue, Event.settlement]

/-- Witness for C9 at a concrete input. -/
theorem disconnect_not_connected_noop_witness :
    (disconnect [] "file1" false).registry = ([] : Registry) :=
  (disconnect_not_connected_noop [] "file1" false rfl).1

/-- C10: a connect whose protocol response carries an empty handle settles
its promise as a rejection carrying no reason value, so the outcome is the
same whatever the response's message list says — the messages reach only
the error display and the status view, not the caller's outcome. -/
theorem connect_rejects_without_reason (st : Registry) (uri : String)
    (creds : IConnectionCredentials) (res : ConnectionResult) (t1 t2 t3 t4 : Int)
    (hres : res.connectionId = "") :
    promiseValue (connect st uri creds res t1 t2 t3 t4).trace
      = some (Except.error ()) ∧
    ∀ other : String,
      promiseValue (connect st uri creds { connectionId := "", messages := other }
          t1 t2 t3 t4).trace
        = promiseValue (connect st uri creds res t1 t2 t3 t4).trace := by
  constructor
  · simp [connect, connectSync, connectCallback, hres, promiseValue, Event.settlement]
  · intro other
    simp [connect, connectSync, connectCallback, hres, promiseValue, Event.settlement]

/-- Witness for C10 at a concrete input. -/
theorem connect_rejects_without_reason_witness :
    promiseValue (connect [] "file1" sampleCreds
        { connectionId := "", messages := "some failure" } 0 0 0 0).trace
      = some (Except.error ()) :=
  (connect_rejects_without_reason [] "file1" sampleCreds
    { connectionId := "", messages := "some failure" } 0 0 0 0 rfl).1

end ConnMgr
